import Mathlib

/-!
# Unmessify — verification of the projection & advisory engine

Shallow embedding of the core engine of `src/unnamed/part_000` (the
Unmessify application logic).  Conventions of the embedding:

* Calendar dates are modelled as integers counting whole days (the code
  does all date arithmetic in whole-day units via `Date` differences
  divided by 86 400 000 ms).  `formatDate` is the identity under this
  model, and the JS `getDay` weekday of an integer day `d` is `(d + 4) % 7`
  (day 0 = Thursday, matching the Unix epoch convention of JS `Date`,
  where `getDay` yields 0 = Sunday … 6 = Saturday).
* JS numbers are modelled as exact rationals ℚ; the single irrational
  operation, `Math.pow(x, 0.5)` in `calculateDailySafeLimit`, is modelled
  as `Real.sqrt`, which forces that one computation through ℝ.
* The ambient clock (`new Date()` inside `computeDerivedData`,
  `calculateBurnRateWindow`, `calculateDailySafeLimit` and the
  weekend-boost advice rule) is threaded as an explicit `today : ℤ`
  parameter, as the functions otherwise only read it.
* JS `Infinity` (the exhaustion sentinel) is `⊤ : WithTop ℤ`.
* The advice rules' message templates are display-only interpolated
  strings; the advice items are modelled with their `id`, `title`,
  `severity` and `category` fields, which is everything the engine's
  filtering, sorting and truncation observe.
-/

set_option linter.unusedVariables false

namespace Unmessify

/-- JS `Date.prototype.getDay` on an integer day number (0 = Sunday). -/
def getDay (d : ℤ) : ℤ := (d + 4) % 7

/-- `today.getDay() === 0 || today.getDay() === 6` in `calculateDailySafeLimit`. -/
def isWeekend (d : ℤ) : Bool := getDay d = 0 ∨ getDay d = 6

/-- `notificationThresholds` sub-record of the profile preferences. -/
structure NotificationThresholds where
  warning : ℚ
  danger : ℚ
deriving Repr, DecidableEq

/-- `preferences` sub-record of the profile.  `riskTolerance` is an
`Option String` so that an absent (`undefined`) field is representable. -/
structure Preferences where
  riskTolerance : Option String
  weekendBoost : Bool
  examMode : Bool
  maxSpendPerDay : Option ℚ
  vegetarian : Bool
  notificationThresholds : NotificationThresholds
deriving Repr, DecidableEq

/-- User profile (see `createDefaultProfile` for the field set). -/
structure Profile where
  userType : String
  monthlyCredits : ℚ
  monthDays : ℤ
  startDate : ℤ
  preferences : Preferences
deriving Repr, DecidableEq

/-- One expense entry (see `createExpenseEntry`). -/
structure Expense where
  id : String
  date : ℤ
  mealType : String
  itemType : String
  quantity : ℤ
  cost : ℚ
  notes : Option String
deriving Repr, DecidableEq

/-- The object literal `{remainingCredits, remainingDays, averageDailySpend,
targetBurnRate}` passed to `calculateDailySafeLimit`. -/
structure DerivedBase where
  remainingCredits : ℚ
  remainingDays : ℤ
  averageDailySpend : ℚ
  targetBurnRate : ℚ
deriving Repr, DecidableEq

/-- Result of `predictExhaustionDate`: a nullable date and a day count that
may be the JS `Infinity` sentinel (`⊤`). -/
structure ExhaustionResult where
  predictedExhaustionDate : Option ℤ
  daysUntilExhaustion : WithTop ℤ
deriving DecidableEq

/-- `calculateBurnRateWindow(expenses, windowDays, startDate)`; the ambient
`new Date()` is the explicit `today`. -/
def calculateBurnRateWindow (expenses : List Expense) (windowDays : ℤ)
    (startDate today : ℤ) : ℚ :=
  let windowStart : ℤ := today - windowDays + 1
  let effectiveStart : ℤ := if startDate < windowStart then windowStart else startDate
  let windowExpenses := expenses.filter fun e =>
    decide (effectiveStart ≤ e.date ∧ e.date ≤ today)
  let windowTotal : ℚ := (windowExpenses.map Expense.cost).sum
  let actualWindowDays : ℤ := max 1 (today - effectiveStart + 1)
  windowTotal / (actualWindowDays : ℚ)

/-- `predictExhaustionDate(remainingCredits, burnRate, today, endDate)`.
`endDate` is accepted (as in the source) but unused by the body. -/
def predictExhaustionDate (remainingCredits burnRate : ℚ)
    (today endDate : ℤ) : ExhaustionResult :=
  if remainingCredits ≤ 0 then
    { predictedExhaustionDate := some today, daysUntilExhaustion := ((0 : ℤ) : WithTop ℤ) }
  else if burnRate ≤ 0 then
    { predictedExhaustionDate := none, daysUntilExhaustion := ⊤ }
  else
    let daysUntilExhaustion : ℤ := Int.ceil (remainingCredits / burnRate)
    { predictedExhaustionDate := some (today + daysUntilExhaustion),
      daysUntilExhaustion := (daysUntilExhaustion : WithTop ℤ) }

/-- `determineRiskLevel`: the ordered decision list of the source. -/
def determineRiskLevel (totalSpent monthlyCredits : ℚ) (daysElapsed monthDays : ℤ)
    (daysUntilExhaustion : WithTop ℤ) (remainingDays : ℤ)
    (thresholds : NotificationThresholds) : String :=
  let creditsUsedRatio : ℚ := if 0 < monthlyCredits then totalSpent / monthlyCredits else 0
  let timeElapsedRatio : ℚ := if 0 < monthDays then (daysElapsed : ℚ) / (monthDays : ℚ) else 0
  if daysUntilExhaustion ≠ ⊤ ∧ daysUntilExhaustion < ((remainingDays - 3 : ℤ) : WithTop ℤ) then
    "danger"
  else if thresholds.danger ≤ creditsUsedRatio then "danger"
  else if thresholds.warning ≤ creditsUsedRatio then "watch"
  else if timeElapsedRatio + 0.15 < creditsUsedRatio then "danger"
  else if timeElapsedRatio + 0.05 < creditsUsedRatio then "watch"
  else "safe"

/-- `determineConfidenceLevel(expenseCount, daysElapsed)`. -/
def determineConfidenceLevel (expenseCount : ℕ) (daysElapsed : ℤ) : String :=
  if expenseCount < 3 ∨ daysElapsed < 2 then "low"
  else if expenseCount < 10 ∨ daysElapsed < 5 then "medium"
  else "high"

/-- The `toleranceFactors[...] || 1.0` lookup in `calculateDailySafeLimit`,
on the lookup's numeric domain: an own key (`low`/`medium`/`high`) yields
its stored factor (all three are truthy, so `||` is an option-default
there), and a key found nowhere — including an absent `riskTolerance`,
whose JS key is the string `"undefined"` — yields `undefined`, so the
`|| 1.0` fallback fires.  A key that instead hits an inherited member of
`Object.prototype` gets a truthy non-number in JS and poisons the
arithmetic with `NaN`; that path is modelled separately by
`toleranceLookupJS` / `calculateDailySafeLimitJS` below and never arises
for the data-model values `{low, medium, high}` or an absent field. -/
def toleranceFactor (riskTolerance : Option String) : ℚ :=
  match riskTolerance with
  | some s => (([("low", (0.85 : ℚ)), ("medium", 1.0), ("high", 1.1)]).lookup s).getD 1.0
  | none => 1.0

/-- `calculateDailySafeLimit(profile, expenses, derivedBase)`; the ambient
`new Date()` used for weekend detection is the explicit `today`.  The
`expenses` argument is accepted (as in the source) but unused by the body.
`Math.pow(overshootRatio, 0.5)` is `Real.sqrt`, the one step through ℝ;
JS `Math.round` (half toward +∞) is Mathlib `round` (`⌊x + 1/2⌋`). -/
noncomputable def calculateDailySafeLimit (profile : Profile) (expenses : List Expense)
    (derivedBase : DerivedBase) (today : ℤ) : ℤ :=
  if derivedBase.remainingDays ≤ 0 then 0
  else
    let base : ℚ := derivedBase.remainingCredits / (derivedBase.remainingDays : ℚ)
    let damped : ℝ :=
      if 0 < derivedBase.averageDailySpend ∧ 0 < derivedBase.targetBurnRate ∧
          derivedBase.targetBurnRate < derivedBase.averageDailySpend then
        let overshootRatio : ℚ := derivedBase.averageDailySpend / derivedBase.targetBurnRate
        (base : ℝ) / Real.sqrt (overshootRatio : ℝ)
      else (base : ℝ)
    let factor : ℚ := toleranceFactor profile.preferences.riskTolerance
    let afterTolerance : ℝ := damped * (factor : ℝ)
    let afterWeekend : ℝ :=
      if profile.preferences.weekendBoost ∧ isWeekend today then
        afterTolerance * ((1.15 : ℚ) : ℝ)
      else afterTolerance
    let afterExam : ℝ :=
      if profile.preferences.examMode then afterWeekend * ((1.05 : ℚ) : ℝ) else afterWeekend
    let afterCap : ℝ :=
      match profile.preferences.maxSpendPerDay with
      | some cap => if 0 < cap then min afterExam ((cap : ℚ) : ℝ) else afterExam
      | none => afterExam
    max 0 (round afterCap)

/-- The `DerivedMetrics` snapshot returned by `computeDerivedData`. -/
structure DerivedMetrics where
  today : ℤ
  daysElapsed : ℤ
  remainingDays : ℤ
  totalSpent : ℚ
  remainingCredits : ℚ
  todaySpend : ℚ
  dailySafeLimit : ℤ
  averageDailySpend : ℚ
  burnRate7d : ℚ
  burnRate3d : ℚ
  burnRateOverall : ℚ
  targetBurnRate : ℚ
  predictedExhaustionDate : Option ℤ
  daysUntilExhaustion : WithTop ℤ
  riskLevel : String
  surplusOrDeficit : ℚ
  creditsUsedRatio : ℚ
  timeElapsedRatio : ℚ
  confidenceLevel : String
  endDate : ℤ

/-- `computeDerivedData(profile, expenses)`; ambient `new Date()` is the
explicit `today`. -/
noncomputable def computeDerivedData (profile : Profile) (expenses : List Expense)
    (today : ℤ) : DerivedMetrics :=
  let todayStr : ℤ := today
  let startDate : ℤ := profile.startDate
  let endDate : ℤ := startDate + profile.monthDays - 1
  let daysElapsed : ℤ := max 0 ((today - startDate) + 1)
  let remainingDays : ℤ := max 0 (profile.monthDays - daysElapsed)
  let totalSpent : ℚ := (expenses.map Expense.cost).sum
  let remainingCredits : ℚ := max 0 (profile.monthlyCredits - totalSpent)
  let todayExpenses := expenses.filter fun e => decide (e.date = todayStr)
  let todaySpend : ℚ := (todayExpenses.map Expense.cost).sum
  let burnRateOverall : ℚ := if 0 < daysElapsed then totalSpent / (daysElapsed : ℚ) else 0
  let burnRate7d : ℚ := calculateBurnRateWindow expenses 7 startDate today
  let burnRate3d : ℚ := calculateBurnRateWindow expenses 3 startDate today
  let targetBurnRate : ℚ := profile.monthlyCredits / (profile.monthDays : ℚ)
  let dailySafeLimit : ℤ := calculateDailySafeLimit profile expenses
    { remainingCredits := remainingCredits, remainingDays := remainingDays,
      averageDailySpend := burnRateOverall, targetBurnRate := targetBurnRate } today
  let exhaustion := predictExhaustionDate remainingCredits
    (if 0 < burnRate7d then burnRate7d else burnRateOverall) today endDate
  let projectedTotalSpend : ℚ := burnRateOverall * (profile.monthDays : ℚ)
  let surplusOrDeficit : ℚ := profile.monthlyCredits - projectedTotalSpend
  let riskLevel : String := determineRiskLevel totalSpent profile.monthlyCredits
    daysElapsed profile.monthDays exhaustion.daysUntilExhaustion remainingDays
    profile.preferences.notificationThresholds
  let creditsUsedRatio : ℚ :=
    if 0 < profile.monthlyCredits then totalSpent / profile.monthlyCredits else 0
  let timeElapsedRatio : ℚ :=
    if 0 < profile.monthDays then (daysElapsed : ℚ) / (profile.monthDays : ℚ) else 0
  let confidenceLevel : String := determineConfidenceLevel expenses.length daysElapsed
  { today := todayStr
    daysElapsed := daysElapsed
    remainingDays := remainingDays
    totalSpent := totalSpent
    remainingCredits := remainingCredits
    todaySpend := todaySpend
    dailySafeLimit := dailySafeLimit
    averageDailySpend := burnRateOverall
    burnRate7d := burnRate7d
    burnRate3d := burnRate3d
    burnRateOverall := burnRateOverall
    targetBurnRate := targetBurnRate
    predictedExhaustionDate := exhaustion.predictedExhaustionDate
    daysUntilExhaustion := exhaustion.daysUntilExhaustion
    riskLevel := riskLevel
    surplusOrDeficit := surplusOrDeficit
    creditsUsedRatio := creditsUsedRatio
    timeElapsedRatio := timeElapsedRatio
    confidenceLevel := confidenceLevel
    endDate := endDate }

/-- An advice item as built by `generateAdvice` from a firing rule
(`message`, an interpolated display string, is not modelled; the engine
never inspects it). -/
structure AdviceItem where
  id : String
  title : String
  severity : String
  category : String
deriving Repr, DecidableEq

/-- One entry of the declarative `adviceRules` table.  The `when`
predicate receives the ambient `today` needed by the weekend-boost rule. -/
structure AdviceRule where
  id : String
  when : Profile → DerivedMetrics → List Expense → ℤ → Bool
  severity : String
  category : String
  title : String

/-- The fixed nine-rule `adviceRules` table (rule-table order preserved;
titles are kept without their leading emoji glyphs). -/
def adviceRules : List AdviceRule :=
  [ { id := "on_track",
      when := fun _ d es _ => decide (d.riskLevel = "safe" ∧ 3 ≤ es.length),
      severity := "low", category := "positive", title := "Great Progress" },
    { id := "overspending_early",
      when := fun p d _ _ => decide ((d.daysElapsed : ℚ) ≤ (p.monthDays : ℚ) / 2 ∧
        d.timeElapsedRatio + 0.1 < d.creditsUsedRatio),
      severity := "high", category := "spend_control", title := "Early Overspending" },
    { id := "exhaustion_warning",
      when := fun _ d _ _ => decide (d.daysUntilExhaustion ≠ ⊤ ∧
        d.daysUntilExhaustion < ((d.remainingDays : ℤ) : WithTop ℤ)),
      severity := "high", category := "prediction", title := "Credit Exhaustion Alert" },
    { id := "frequent_chicken",
      when := fun _ _ es _ =>
        decide (5 ≤ (es.filter fun e => decide (e.itemType = "chicken")).length),
      severity := "medium", category := "category_mix", title := "Chicken Frequency" },
    { id := "dessert_spending",
      when := fun p _ es _ =>
        decide (p.monthlyCredits * 0.1 <
          ((es.filter fun e => decide (e.itemType = "dessert")).map Expense.cost).sum),
      severity := "medium", category := "luxury", title := "Dessert Alert" },
    { id := "daily_limit_exceeded",
      when := fun _ d _ _ => decide ((d.dailySafeLimit : ℚ) < d.todaySpend ∧
        0 < d.dailySafeLimit),
      severity := "high", category := "daily", title := "Daily Limit Exceeded" },
    { id := "weekend_boost_suggestion",
      when := fun p d _ today => decide (p.preferences.weekendBoost = false ∧
        (1 ≤ getDay today ∧ getDay today ≤ 5) ∧
        d.todaySpend < (d.dailySafeLimit : ℚ) * 0.8),
      severity := "low", category := "tip", title := "Weekend Boost" },
    { id := "surplus_projection",
      when := fun p d es _ => decide (p.monthlyCredits * 0.1 < d.surplusOrDeficit ∧
        5 ≤ es.length),
      severity := "low", category := "positive", title := "Surplus Projected" },
    { id := "queue_risk",
      when := fun _ d _ _ => decide (d.riskLevel = "danger" ∧ d.remainingCredits < 500),
      severity := "high", category := "warning", title := "Queue Risk" } ]

/-- The `severityOrder` lookup object `{high: 0, medium: 1, low: 2}` used by
the sort comparator (every severity in the table is one of the keys, so the
default is never exercised). -/
def severityOrder (s : String) : ℤ :=
  (([("high", (0 : ℤ)), ("medium", 1), ("low", 2)]).lookup s).getD 0

/-- The `triggeredRules` list built inside `generateAdvice`: the firing
rules, in rule-table order, mapped to advice items. -/
def triggeredItems (profile : Profile) (derived : DerivedMetrics)
    (expenses : List Expense) (today : ℤ) : List AdviceItem :=
  (adviceRules.filter fun rule => rule.when profile derived expenses today).map fun rule =>
    { id := rule.id, title := rule.title, severity := rule.severity,
      category := rule.category }

/-- `generateAdvice(profile, derived, expenses)`: filter, stable-sort by
severity (JS `Array.prototype.sort` is stable; modelled by `mergeSort`),
truncate to the top 5. -/
def generateAdvice (profile : Profile) (derived : DerivedMetrics)
    (expenses : List Expense) (today : ℤ) : List AdviceItem :=
  let triggeredRules := triggeredItems profile derived expenses today
  let sorted := triggeredRules.mergeSort fun a b =>
    decide (severityOrder a.severity ≤ severityOrder b.severity)
  sorted.take 5

/-- The risk classifier exactly as claim C5 words it: an ordered decision
list over the two guarded ratios, first match wins.  Compared against the
source embedding `determineRiskLevel`. -/
def classifyRisk_claim (totalSpent monthlyCredits : ℚ) (daysElapsed monthDays : ℤ)
    (daysUntilExhaustion : WithTop ℤ) (remainingDays : ℤ)
    (thresholds : NotificationThresholds) : String :=
  let creditsUsedRatio : ℚ := if 0 < monthlyCredits then totalSpent / monthlyCredits else 0
  let timeElapsedRatio : ℚ := if 0 < monthDays then (daysElapsed : ℚ) / (monthDays : ℚ) else 0
  if daysUntilExhaustion ≠ ⊤ ∧ daysUntilExhaustion < ((remainingDays - 3 : ℤ) : WithTop ℤ) then
    "danger"
  else if thresholds.danger ≤ creditsUsedRatio then "danger"
  else if thresholds.warning ≤ creditsUsedRatio then "watch"
  else if timeElapsedRatio + 0.15 < creditsUsedRatio then "danger"
  else if timeElapsedRatio + 0.05 < creditsUsedRatio then "watch"
  else "safe"

/-- The safe-limit calculator exactly as claim C6 words it: base, guarded
sqrt dampening, tolerance factor, weekend boost, exam boost, positive cap,
then "floors at 0 and rounds" (`round (max 0 ·)`, whereas the source rounds
first and then clamps at 0 — the two compose to the same value).  Compared
against the source embedding `calculateDailySafeLimit`. -/
noncomputable def safeLimit_claim (profile : Profile) (derivedBase : DerivedBase)
    (today : ℤ) : ℤ :=
  if derivedBase.remainingDays ≤ 0 then 0
  else
    let base : ℚ := derivedBase.remainingCredits / (derivedBase.remainingDays : ℚ)
    let damped : ℝ :=
      if 0 < derivedBase.averageDailySpend ∧ 0 < derivedBase.targetBurnRate ∧
          derivedBase.targetBurnRate < derivedBase.averageDailySpend then
        let overshootRatio : ℚ := derivedBase.averageDailySpend / derivedBase.targetBurnRate
        (base : ℝ) / Real.sqrt (overshootRatio : ℝ)
      else (base : ℝ)
    let factor : ℚ := toleranceFactor profile.preferences.riskTolerance
    let afterTolerance : ℝ := damped * (factor : ℝ)
    let afterWeekend : ℝ :=
      if profile.preferences.weekendBoost ∧ isWeekend today then
        afterTolerance * ((1.15 : ℚ) : ℝ)
      else afterTolerance
    let afterExam : ℝ :=
      if profile.preferences.examMode then afterWeekend * ((1.05 : ℚ) : ℝ) else afterWeekend
    let afterCap : ℝ :=
      match profile.preferences.maxSpendPerDay with
      | some cap => if 0 < cap then min afterExam ((cap : ℚ) : ℝ) else afterExam
      | none => afterExam
    round (max 0 afterCap)

/-- The intermediate "base" of the safe-limit calculation after the guarded
sqrt dampening (steps 1–2 of the claim C6 description). -/
noncomputable def dampedBase (derivedBase : DerivedBase) : ℝ :=
  if 0 < derivedBase.averageDailySpend ∧ 0 < derivedBase.targetBurnRate ∧
      derivedBase.targetBurnRate < derivedBase.averageDailySpend then
    ((derivedBase.remainingCredits / (derivedBase.remainingDays : ℚ) : ℚ) : ℝ) /
      Real.sqrt ((derivedBase.averageDailySpend / derivedBase.targetBurnRate : ℚ) : ℝ)
  else ((derivedBase.remainingCredits / (derivedBase.remainingDays : ℚ) : ℚ) : ℝ)

/-- Scenario A profile: `monthlyCredits = 6000`, `periodDays = 30`, period
starts on day 0 (so "day 1" is `today = 0`), default preferences. -/
def profileA : Profile :=
  { userType := "hostel_student", monthlyCredits := 6000, monthDays := 30, startDate := 0,
    preferences :=
      { riskTolerance := some "medium", weekendBoost := false, examMode := false,
        maxSpendPerDay := none, vegetarian := false,
        notificationThresholds := { warning := 0.7, danger := 0.9 } } }

/-- Scenario D profile: high risk tolerance, weekend boost, exam mode, no cap. -/
def profileD : Profile :=
  { userType := "hostel_student", monthlyCredits := 6000, monthDays := 30, startDate := 0,
    preferences :=
      { riskTolerance := some "high", weekendBoost := true, examMode := true,
        maxSpendPerDay := none, vegetarian := false,
        notificationThresholds := { warning := 0.7, danger := 0.9 } } }

/-- A derived base for scenario D: dampening inactive, 2000 credits over
10 remaining days. -/
def baseD : DerivedBase :=
  { remainingCredits := 2000, remainingDays := 10, averageDailySpend := 0,
    targetBurnRate := 200 }

/-- `profileA` with an absent (`undefined`) `riskTolerance`. -/
def profileN : Profile :=
  { profileA with preferences := { profileA.preferences with riskTolerance := none } }

/-- A single sample expense record. -/
def expenseB : Expense :=
  { id := "e1", date := 0, mealType := "lunch", itemType := "veg", quantity := 1,
    cost := 500, notes := none }

/-- The property names a string-keyed bracket read on a plain object
literal reaches through the prototype chain: the members of
`Object.prototype` (standard methods, the `__proto__` accessor and the
legacy accessor-management functions).  Each evaluates to a function or an
object — a truthy non-number. -/
def objectPrototypeKeys : List String :=
  ["constructor", "hasOwnProperty", "isPrototypeOf", "propertyIsEnumerable",
   "toLocaleString", "toString", "valueOf", "__proto__",
   "__defineGetter__", "__defineSetter__", "__lookupGetter__", "__lookupSetter__"]

/-- Outcome of the JS property read `toleranceFactors[key]`: an own
numeric property, an inherited truthy non-number from `Object.prototype`,
or `undefined`. -/
inductive JsLookup where
  | own (q : ℚ)
  | inherited
  | undef
deriving Repr, DecidableEq

/-- `toleranceFactors[profile.preferences.riskTolerance]` with JavaScript's
full property-read semantics: own keys `low`/`medium`/`high` first, then
the `Object.prototype` chain, else `undefined`.  An absent field reads with
the key `"undefined"`, which misses both, hence `undef`. -/
def toleranceLookupJS (riskTolerance : Option String) : JsLookup :=
  match riskTolerance with
  | none => JsLookup.undef
  | some s =>
    match ([("low", (0.85 : ℚ)), ("medium", 1.0), ("high", 1.1)]).lookup s with
    | some q => JsLookup.own q
    | none => if s ∈ objectPrototypeKeys then JsLookup.inherited else JsLookup.undef

/-- `calculateDailySafeLimit` with the tolerance-factor read modelled at
full JavaScript fidelity.  When the read hits an inherited
`Object.prototype` member, `factor` is a truthy non-number, `base * factor`
is `NaN`, and `NaN` propagates through every later step (`* 1.15`,
`* 1.05`, `Math.min`, `Math.round`, `Math.max(0, ·)`), so the function
returns `NaN` — modelled as `none`.  The `remainingDays ≤ 0` early return
happens before the factor read.  On every other lookup outcome the factor
agrees with `toleranceFactor`, so the result is `some` of the value of the
main embedding. -/
noncomputable def calculateDailySafeLimitJS (profile : Profile) (expenses : List Expense)
    (derivedBase : DerivedBase) (today : ℤ) : Option ℤ :=
  if derivedBase.remainingDays ≤ 0 then some 0
  else
    match toleranceLookupJS profile.preferences.riskTolerance with
    | JsLookup.inherited => none
    | _ => some (calculateDailySafeLimit profile expenses derivedBase today)

/-- `profileA` with `riskTolerance := some "toString"`: a value outside
{low, medium, high} whose lookup hits `Object.prototype.toString`. -/
def profileT : Profile :=
  { profileA with preferences :=
      { profileA.preferences with riskTolerance := some "toString" } }

/-! ## Helper lemmas -/

theorem round_eq_of_bounds {α : Type} [LinearOrderedField α] [FloorRing α]
    (x : α) (n : ℤ) (h1 : (n : α) ≤ x + 1 / 2) (h2 : x + 1 / 2 < n + 1) :
    round x = n := by
  rw [round_eq]
  exact Int.floor_eq_iff.mpr ⟨h1, h2⟩

theorem round_nonneg_of_nonneg {α : Type} [LinearOrderedField α] [FloorRing α]
    (x : α) (h : 0 ≤ x) : 0 ≤ round x := by
  rw [round_eq]
  exact Int.floor_nonneg.mpr (by linarith)

theorem round_le_round_of_le {α : Type} [LinearOrderedField α] [FloorRing α]
    (x y : α) (h : x ≤ y) : round x ≤ round y := by
  rw [round_eq, round_eq]
  exact Int.floor_le_floor (by linarith)

theorem max_zero_round_comm {α : Type} [LinearOrderedField α] [FloorRing α]
    (x : α) : max 0 (round x) = round (max 0 x) := by
  rcases le_total x 0 with h | h
  · rw [max_eq_left h, round_zero, max_eq_left]
    calc round x ≤ round (0 : α) := round_le_round_of_le x 0 h
    _ = 0 := round_zero
  · rw [max_eq_right h, max_eq_right (round_nonneg_of_nonneg x h)]

theorem toleranceFactor_low : toleranceFactor (some "low") = 17 / 20 := by
  rw [show toleranceFactor (some "low") = (0.85 : ℚ) from rfl]; norm_num

theorem toleranceFactor_medium : toleranceFactor (some "medium") = 1 := by
  rw [show toleranceFactor (some "medium") = (1.0 : ℚ) from rfl]; norm_num

theorem toleranceFactor_high : toleranceFactor (some "high") = 11 / 10 := by
  rw [show toleranceFactor (some "high") = (1.1 : ℚ) from rfl]; norm_num

theorem toleranceFactor_default (rt : Option String)
    (h1 : rt ≠ some "low") (h2 : rt ≠ some "medium") (h3 : rt ≠ some "high") :
    toleranceFactor rt = 1 := by
  match rt with
  | none => norm_num [toleranceFactor]
  | some s =>
    simp only [ne_eq, Option.some.injEq] at h1 h2 h3
    norm_num [toleranceFactor, List.lookup, beq_eq_false_iff_ne.mpr h1,
      beq_eq_false_iff_ne.mpr h2, beq_eq_false_iff_ne.mpr h3]

/-! ## Claim theorems -/

/-- C3 — corrected.  Counterexample to the claim as stated: at
`remainingCredits = 0`, `burnRate = 0`, the first guard of
`predictExhaustionDate` fires, so the result is `0` days (not the infinite
sentinel) even though `burnRate ≤ 0`: the claimed "sentinel iff
`burnRate ≤ 0`" equivalence is false there. -/
theorem predictExhaustionDate_sentinel_iff_fails_at_zero :
    ¬ (((predictExhaustionDate 0 0 0 29).daysUntilExhaustion = ⊤) ↔ (0 : ℚ) ≤ 0) := by
  simp [predictExhaustionDate]

/-- C3 — amended claim: `predictExhaustionDate` is deterministic (identical
inputs give identical results), and, provided `remainingCredits > 0`, it
returns the infinite sentinel (`daysUntil = ⊤`) if and only if
`burnRate ≤ 0`. -/
theorem predictExhaustionDate_deterministic_sentinel_iff (r b : ℚ) (t e : ℤ)
    (hr : 0 < r) :
    predictExhaustionDate r b t e = predictExhaustionDate r b t e ∧
    ((predictExhaustionDate r b t e).daysUntilExhaustion = ⊤ ↔ b ≤ 0) := by
  refine ⟨rfl, ?_⟩
  unfold predictExhaustionDate
  rw [if_neg (by linarith)]
  by_cases hb : b ≤ 0
  · rw [if_pos hb]
    simpa using hb
  · rw [if_neg hb]
    simp [hb]

/-- Witness for C3's amended theorem at `remainingCredits = 100`,
`burnRate = 0`. -/
theorem predictExhaustionDate_deterministic_sentinel_iff_witness :
    (0 : ℚ) < 100 ∧
    ((predictExhaustionDate 100 0 0 29).daysUntilExhaustion = ⊤ ↔ (0 : ℚ) ≤ 0) :=
  ⟨by norm_num, (predictExhaustionDate_deterministic_sentinel_iff 100 0 0 29 (by norm_num)).2⟩

/-- C4 — confirmed.  The three-case contract of `predictExhaustionDate`,
read in order: `remainingCredits ≤ 0` gives today's date with 0 days;
otherwise `burnRate ≤ 0` gives a null date with the infinite sentinel;
otherwise `daysUntil = ceil(remainingCredits / burnRate)` and
`date = today + daysUntil`. -/
theorem predictExhaustionDate_three_cases (r b : ℚ) (t e : ℤ) :
    (r ≤ 0 → predictExhaustionDate r b t e =
      { predictedExhaustionDate := some t,
        daysUntilExhaustion := ((0 : ℤ) : WithTop ℤ) }) ∧
    (0 < r → b ≤ 0 → predictExhaustionDate r b t e =
      { predictedExhaustionDate := none, daysUntilExhaustion := ⊤ }) ∧
    (0 < r → 0 < b → predictExhaustionDate r b t e =
      { predictedExhaustionDate := some (t + Int.ceil (r / b)),
        daysUntilExhaustion := ((Int.ceil (r / b) : ℤ) : WithTop ℤ) }) := by
  refine ⟨fun h => ?_, fun hr hb => ?_, fun hr hb => ?_⟩
  · rw [predictExhaustionDate, if_pos h]
  · rw [predictExhaustionDate, if_neg (by linarith), if_pos hb]
  · rw [predictExhaustionDate, if_neg (by linarith), if_neg (by linarith)]

/-- Witness for C4: each of the three cases at a concrete input. -/
theorem predictExhaustionDate_three_cases_witness :
    ((0 : ℚ) ≤ 0 ∧ predictExhaustionDate 0 5 3 9 =
      { predictedExhaustionDate := some 3,
        daysUntilExhaustion := ((0 : ℤ) : WithTop ℤ) }) ∧
    ((0 : ℚ) < 100 ∧ (0 : ℚ) ≤ 0 ∧ predictExhaustionDate 100 0 3 9 =
      { predictedExhaustionDate := none, daysUntilExhaustion := ⊤ }) ∧
    ((0 : ℚ) < 100 ∧ (0 : ℚ) < 40 ∧ predictExhaustionDate 100 40 3 9 =
      { predictedExhaustionDate := some (3 + Int.ceil ((100 : ℚ) / 40)),
        daysUntilExhaustion := ((Int.ceil ((100 : ℚ) / 40) : ℤ) : WithTop ℤ) }) :=
  ⟨⟨by norm_num, (predictExhaustionDate_three_cases 0 5 3 9).1 (by norm_num)⟩,
   ⟨by norm_num, by norm_num,
     (predictExhaustionDate_three_cases 100 0 3 9).2.1 (by norm_num) (by norm_num)⟩,
   ⟨by norm_num, by norm_num,
     (predictExhaustionDate_three_cases 100 40 3 9).2.2 (by norm_num) (by norm_num)⟩⟩

/-- C5 — confirmed.  `determineRiskLevel` is exactly the ordered decision
list of the claim (`classifyRisk_claim`), and in the scenario
`remainingCredits = 100`, `burnRate = 50`, `remainingDays = 10` the
exhaustion forecast (2 days, since `ceil(100/50) = 2 < 10 − 3`) forces
`danger` regardless of all the ratio inputs and thresholds. -/
theorem determineRiskLevel_decision_list :
    (∀ (ts mc : ℚ) (de md : ℤ) (d : WithTop ℤ) (rd : ℤ) (th : NotificationThresholds),
      determineRiskLevel ts mc de md d rd th = classifyRisk_claim ts mc de md d rd th) ∧
    (∀ (ts mc : ℚ) (de md : ℤ) (th : NotificationThresholds) (t e : ℤ),
      determineRiskLevel ts mc de md
        (predictExhaustionDate 100 50 t e).daysUntilExhaustion 10 th = "danger") := by
  constructor
  · intro ts mc de md d rd th
    rfl
  · intro ts mc de md th t e
    have hd : (predictExhaustionDate 100 50 t e).daysUntilExhaustion =
        ((2 : ℤ) : WithTop ℤ) := by
      rw [predictExhaustionDate, if_neg (by norm_num), if_neg (by norm_num)]
      norm_num
    rw [determineRiskLevel, hd, if_pos]
    refine ⟨by simp, ?_⟩
    rw [show ((10 : ℤ) - 3 : ℤ) = 7 from by norm_num]
    exact_mod_cast (by norm_num : (2 : ℤ) < 7)

theorem calculateDailySafeLimit_nonneg (p : Profile) (es : List Expense)
    (b : DerivedBase) (t : ℤ) : 0 ≤ calculateDailySafeLimit p es b t := by
  unfold calculateDailySafeLimit
  split
  · exact le_refl 0
  · exact le_max_left 0 _

/-- C1 — confirmed.  For any profile with positive `monthlyCredits` and
`monthDays`, any expense list with non-negative costs and any `today`,
`computeDerivedData` returns (totally — it is a plain function of its
inputs, every division in the embedding being the source's guarded one)
metrics with `remainingCredits ≥ 0` and `dailySafeLimit ≥ 0`. -/
theorem computeDerivedData_nonneg_invariants (p : Profile) (es : List Expense) (t : ℤ)
    (hc : 0 < p.monthlyCredits) (hd : 0 < p.monthDays)
    (hcost : ∀ e ∈ es, 0 ≤ e.cost) :
    0 ≤ (computeDerivedData p es t).remainingCredits ∧
    0 ≤ (computeDerivedData p es t).dailySafeLimit := by
  constructor
  · simp only [computeDerivedData]
    exact le_max_left 0 _
  · simp only [computeDerivedData]
    exact calculateDailySafeLimit_nonneg _ _ _ _

/-- Witness for C1 at the scenario-A profile with no expenses. -/
theorem computeDerivedData_nonneg_invariants_witness :
    0 < profileA.monthlyCredits ∧ 0 < profileA.monthDays ∧
    (0 ≤ (computeDerivedData profileA [] 0).remainingCredits ∧
     0 ≤ (computeDerivedData profileA [] 0).dailySafeLimit) :=
  ⟨by norm_num [profileA], by norm_num [profileA],
   computeDerivedData_nonneg_invariants profileA [] 0 (by norm_num [profileA])
     (by norm_num [profileA]) (by simp)⟩

theorem profileA_dailySafeLimit_eq :
    (computeDerivedData profileA [] 0).dailySafeLimit = 207 := by
  simp only [computeDerivedData, calculateDailySafeLimit, isWeekend, getDay,
    calculateBurnRateWindow, profileA, toleranceFactor_medium]
  norm_num
  rw [round_eq_of_bounds (6000 / 29 : ℝ) 207 (by norm_num) (by norm_num)]
  omega

/-- C2 — counterexample to the claim as stated: in scenario A the code's
daily safe limit is `round(remainingCredits / remainingDays) =
round(6000/29) = 207`, not the claimed `round(6000/30 × 1.0) = 200`. -/
theorem scenarioA_dailySafeLimit_ne_200 :
    (computeDerivedData profileA [] 0).dailySafeLimit ≠ 200 := by
  rw [profileA_dailySafeLimit_eq]
  norm_num

/-- C2 — amended claim: in scenario A (`monthlyCredits = 6000`,
`periodDays = 30`, start day 0, medium tolerance, no expenses,
`today = day 0`), `computeDerivedData` returns `daysElapsed = 1`,
`totalSpent = 0`, `remainingCredits = 6000`,
`dailySafeLimit = round(6000/29) = 207` (6000 remaining credits over the
29 *remaining* days — not `round(6000/30) = 200`), `riskLevel = safe`,
`confidenceLevel = low`. -/
theorem scenarioA_metrics :
    (computeDerivedData profileA [] 0).daysElapsed = 1 ∧
    (computeDerivedData profileA [] 0).totalSpent = 0 ∧
    (computeDerivedData profileA [] 0).remainingCredits = 6000 ∧
    (computeDerivedData profileA [] 0).dailySafeLimit = 207 ∧
    (computeDerivedData profileA [] 0).riskLevel = "safe" ∧
    (computeDerivedData profileA [] 0).confidenceLevel = "low" := by
  refine ⟨?_, ?_, ?_, profileA_dailySafeLimit_eq, ?_, ?_⟩
  · simp [computeDerivedData, profileA]
  · simp [computeDerivedData, profileA]
  · simp [computeDerivedData, profileA]
  · simp only [computeDerivedData, determineRiskLevel, predictExhaustionDate,
      calculateBurnRateWindow, profileA]
    norm_num
  · simp [computeDerivedData, determineConfidenceLevel, profileA]

/-- C8 — confirmed.  `calculateBurnRateWindow` sums the costs of the
records dated in the closed interval
`[max(today − windowDays + 1, periodStart), today]`, divides by
`max(1, inclusive day count)` — a divisor that is always ≥ 1, so the
division is never by zero — and the result is non-negative whenever all
costs are. -/
theorem calculateBurnRateWindow_spec (es : List Expense) (w sd t : ℤ)
    (hw : 1 ≤ w) (ht : sd ≤ t) (hc : ∀ e ∈ es, 0 ≤ e.cost) :
    calculateBurnRateWindow es w sd t =
      ((es.filter fun e =>
          decide (max (t - w + 1) sd ≤ e.date ∧ e.date ≤ t)).map Expense.cost).sum /
        ((max 1 (t - max (t - w + 1) sd + 1) : ℤ) : ℚ) ∧
    (1 : ℤ) ≤ max 1 (t - max (t - w + 1) sd + 1) ∧
    0 ≤ calculateBurnRateWindow es w sd t := by
  have hEff : (if sd < t - w + 1 then t - w + 1 else sd) = max (t - w + 1) sd := by
    split <;> omega
  have hEq : calculateBurnRateWindow es w sd t =
      ((es.filter fun e =>
          decide (max (t - w + 1) sd ≤ e.date ∧ e.date ≤ t)).map Expense.cost).sum /
        ((max 1 (t - max (t - w + 1) sd + 1) : ℤ) : ℚ) := by
    simp only [calculateBurnRateWindow]
    rw [hEff]
  refine ⟨hEq, le_max_left 1 _, ?_⟩
  rw [hEq]
  apply div_nonneg
  · apply List.sum_nonneg
    intro x hx
    rw [List.mem_map] at hx
    obtain ⟨e, he, rfl⟩ := hx
    exact hc e (List.mem_of_mem_filter he)
  · have hpos : (0 : ℤ) ≤ max 1 (t - max (t - w + 1) sd + 1) :=
      le_trans zero_le_one (le_max_left _ _)
    exact_mod_cast hpos

/-- Witness for C8: one 500-cost record, window 7, period start 0, today 0. -/
theorem calculateBurnRateWindow_spec_witness :
    (1 : ℤ) ≤ 7 ∧ (0 : ℤ) ≤ 0 ∧ (∀ e ∈ [expenseB], 0 ≤ e.cost) ∧
    0 ≤ calculateBurnRateWindow [expenseB] 7 0 0 :=
  ⟨by norm_num, le_refl 0,
   by intro e he; rw [List.mem_singleton] at he; subst he; norm_num [expenseB],
   (calculateBurnRateWindow_spec [expenseB] 7 0 0 (by norm_num) (le_refl 0)
     (by intro e he; rw [List.mem_singleton] at he; subst he; norm_num [expenseB])).2.2⟩

theorem calculateDailySafeLimit_tolerance_fallback (p : Profile) (es : List Expense)
    (b : DerivedBase) (t : ℤ)
    (h1 : p.preferences.riskTolerance ≠ some "low")
    (h2 : p.preferences.riskTolerance ≠ some "medium")
    (h3 : p.preferences.riskTolerance ≠ some "high") :
    calculateDailySafeLimit p es b t =
      calculateDailySafeLimit
        { p with preferences := { p.preferences with riskTolerance := some "medium" } }
        es b t := by
  unfold calculateDailySafeLimit
  simp only [toleranceFactor_default _ h1 h2 h3, toleranceFactor_medium]

theorem toleranceLookupJS_undef (rt : Option String)
    (h1 : rt ≠ some "low") (h2 : rt ≠ some "medium") (h3 : rt ≠ some "high")
    (h4 : ∀ s, rt = some s → s ∉ objectPrototypeKeys) :
    toleranceLookupJS rt = JsLookup.undef := by
  match rt with
  | none => rfl
  | some s =>
    simp only [ne_eq, Option.some.injEq] at h1 h2 h3
    have hlk : ([("low", (0.85 : ℚ)), ("medium", 1.0), ("high", 1.1)]).lookup s = none := by
      simp [List.lookup, beq_eq_false_iff_ne.mpr h1, beq_eq_false_iff_ne.mpr h2,
        beq_eq_false_iff_ne.mpr h3]
    simp only [toleranceLookupJS, hlk, if_neg (h4 s rfl)]

theorem toleranceLookupJS_inherited (s : String)
    (hs : s ∈ objectPrototypeKeys)
    (hlk : ([("low", (0.85 : ℚ)), ("medium", 1.0), ("high", 1.1)]).lookup s = none) :
    toleranceLookupJS (some s) = JsLookup.inherited := by
  simp only [toleranceLookupJS, hlk, if_pos hs]

/-- C9 — counterexample to the claim as stated: `riskTolerance =
"toString"` is outside {low, medium, high}, yet the JS property read finds
the inherited truthy `Object.prototype.toString`, the `|| 1.0` fallback
does not fire, `base * factor` is `NaN`, and `calculateDailySafeLimit`
returns `NaN` (`none` in the faithful model) — not the `medium` result. -/
theorem calculateDailySafeLimitJS_toString_counterexample :
    profileT.preferences.riskTolerance ≠ some "low" ∧
    profileT.preferences.riskTolerance ≠ some "medium" ∧
    profileT.preferences.riskTolerance ≠ some "high" ∧
    calculateDailySafeLimitJS profileT [] baseD 0 ≠
      calculateDailySafeLimitJS
        { profileT with preferences :=
            { profileT.preferences with riskTolerance := some "medium" } } [] baseD 0 := by
  refine ⟨by simp [profileT, profileA], by simp [profileT, profileA],
    by simp [profileT, profileA], ?_⟩
  unfold calculateDailySafeLimitJS
  rw [if_neg (by norm_num [baseD]), if_neg (by norm_num [baseD])]
  rw [show profileT.preferences.riskTolerance = some "toString" from rfl,
    toleranceLookupJS_inherited "toString" (by decide) (by rfl),
    show ({ profileT with preferences :=
      { profileT.preferences with riskTolerance := some "medium" } } :
        Profile).preferences.riskTolerance = some "medium" from rfl,
    show toleranceLookupJS (some "medium") = JsLookup.own 1.0 from rfl]
  simp

/-- C9 — amended claim: if `riskTolerance` holds any value outside
{low, medium, high} that is also not the name of an inherited
`Object.prototype` member (an absent field included), the `|| 1.0`
fallback fires and `calculateDailySafeLimit` returns exactly the `medium`
result with all other inputs equal; if it names an inherited
`Object.prototype` member, the inherited truthy non-number poisons the
arithmetic and (once past the `remainingDays ≤ 0` early return) the
function returns `NaN`. -/
theorem calculateDailySafeLimitJS_unknown_tolerance :
    (∀ (p : Profile) (es : List Expense) (b : DerivedBase) (t : ℤ),
      p.preferences.riskTolerance ≠ some "low" →
      p.preferences.riskTolerance ≠ some "medium" →
      p.preferences.riskTolerance ≠ some "high" →
      (∀ s, p.preferences.riskTolerance = some s → s ∉ objectPrototypeKeys) →
      calculateDailySafeLimitJS p es b t =
        calculateDailySafeLimitJS
          { p with preferences := { p.preferences with riskTolerance := some "medium" } }
          es b t) ∧
    (∀ (p : Profile) (es : List Expense) (b : DerivedBase) (t : ℤ) (s : String),
      p.preferences.riskTolerance = some s → s ∈ objectPrototypeKeys →
      0 < b.remainingDays →
      calculateDailySafeLimitJS p es b t = none) := by
  constructor
  · intro p es b t h1 h2 h3 h4
    unfold calculateDailySafeLimitJS
    by_cases hrd : b.remainingDays ≤ 0
    · rw [if_pos hrd, if_pos hrd]
    · rw [if_neg hrd, if_neg hrd]
      rw [toleranceLookupJS_undef _ h1 h2 h3 h4]
      have hproj : ({ p with preferences :=
          { p.preferences with riskTolerance := some "medium" } } :
            Profile).preferences.riskTolerance = some "medium" := rfl
      rw [hproj, show toleranceLookupJS (some "medium") = JsLookup.own 1.0 from rfl]
      dsimp only
      rw [calculateDailySafeLimit_tolerance_fallback p es b t h1 h2 h3]
  · intro p es b t s hs hmem hrd
    unfold calculateDailySafeLimitJS
    rw [if_neg (not_le.mpr hrd), hs]
    have hlk : ([("low", (0.85 : ℚ)), ("medium", 1.0), ("high", 1.1)]).lookup s = none := by
      fin_cases hmem <;> rfl
    rw [toleranceLookupJS_inherited s hmem hlk]

/-- Witness for C9's amended theorem: the fallback conjunct at an absent
`riskTolerance`, and the NaN conjunct at `riskTolerance = "toString"`. -/
theorem calculateDailySafeLimitJS_unknown_tolerance_witness :
    (profileN.preferences.riskTolerance ≠ some "low" ∧
     profileN.preferences.riskTolerance ≠ some "medium" ∧
     profileN.preferences.riskTolerance ≠ some "high" ∧
     (∀ s, profileN.preferences.riskTolerance = some s → s ∉ objectPrototypeKeys) ∧
     calculateDailySafeLimitJS profileN [] baseD 0 =
       calculateDailySafeLimitJS
         { profileN with preferences :=
             { profileN.preferences with riskTolerance := some "medium" } } [] baseD 0) ∧
    (profileT.preferences.riskTolerance = some "toString" ∧
     "toString" ∈ objectPrototypeKeys ∧ 0 < baseD.remainingDays ∧
     calculateDailySafeLimitJS profileT [] baseD 0 = none) :=
  ⟨⟨by simp [profileN, profileA], by simp [profileN, profileA], by simp [profileN, profileA],
     by intro s hs; simp [profileN, profileA] at hs,
     calculateDailySafeLimitJS_unknown_tolerance.1 profileN [] baseD 0
       (by simp [profileN, profileA]) (by simp [profileN, profileA])
       (by simp [profileN, profileA]) (by intro s hs; simp [profileN, profileA] at hs)⟩,
   ⟨rfl, by decide, by norm_num [baseD],
     calculateDailySafeLimitJS_unknown_tolerance.2 profileT [] baseD 0 "toString" rfl
       (by decide) (by norm_num [baseD])⟩⟩

theorem dampedBase_nonneg (b : DerivedBase) (hrc : 0 ≤ b.remainingCredits)
    (hrd : 0 ≤ b.remainingDays) : 0 ≤ dampedBase b := by
  have hbase : (0 : ℚ) ≤ b.remainingCredits / (b.remainingDays : ℚ) :=
    div_nonneg hrc (by exact_mod_cast hrd)
  unfold dampedBase
  split
  · exact div_nonneg (by exact_mod_cast hbase) (Real.sqrt_nonneg _)
  · exact_mod_cast hbase

/-- C6 — confirmed.  `calculateDailySafeLimit` realises the claim's
algorithm exactly (`safeLimit_claim`: 0 when no days remain, base with
guarded sqrt dampening, then tolerance → weekend → exam → cap in sequence,
then floor at 0 and round), and in scenario D — high tolerance, weekend
boost on a weekend, exam mode, no cap — the result is
`round(base × 1.1 × 1.15 × 1.05)` of the post-dampening base. -/
theorem calculateDailySafeLimit_spec :
    (∀ (p : Profile) (es : List Expense) (b : DerivedBase) (t : ℤ),
      calculateDailySafeLimit p es b t = safeLimit_claim p b t) ∧
    (∀ (p : Profile) (es : List Expense) (b : DerivedBase) (t : ℤ),
      p.preferences.riskTolerance = some "high" →
      p.preferences.weekendBoost = true →
      isWeekend t = true →
      p.preferences.examMode = true →
      p.preferences.maxSpendPerDay = none →
      0 < b.remainingDays → 0 ≤ b.remainingCredits →
      calculateDailySafeLimit p es b t =
        round (dampedBase b * (1.1 : ℝ) * (1.15 : ℝ) * (1.05 : ℝ))) := by
  constructor
  · intro p es b t
    unfold calculateDailySafeLimit safeLimit_claim
    by_cases hrd : b.remainingDays ≤ 0
    · rw [if_pos hrd, if_pos hrd]
    · rw [if_neg hrd, if_neg hrd]
      dsimp only
      exact max_zero_round_comm _
  · intro p es b t hrt hwb hwk hex hcap hrd hrc
    unfold calculateDailySafeLimit dampedBase
    rw [if_neg (not_le.mpr hrd)]
    dsimp only
    rw [hrt, toleranceFactor_high, hcap, if_pos (⟨hwb, hwk⟩ :
      p.preferences.weekendBoost = true ∧ isWeekend t = true), if_pos hex]
    dsimp only
    have hD : 0 ≤ (if 0 < b.averageDailySpend ∧ 0 < b.targetBurnRate ∧
        b.targetBurnRate < b.averageDailySpend then
          ((b.remainingCredits / (b.remainingDays : ℚ) : ℚ) : ℝ) /
            Real.sqrt ((b.averageDailySpend / b.targetBurnRate : ℚ) : ℝ)
        else ((b.remainingCredits / (b.remainingDays : ℚ) : ℚ) : ℝ)) := by
      have hbase : (0 : ℚ) ≤ b.remainingCredits / (b.remainingDays : ℚ) :=
        div_nonneg hrc (by exact_mod_cast hrd.le)
      split
      · exact div_nonneg (by exact_mod_cast hbase) (Real.sqrt_nonneg _)
      · exact_mod_cast hbase
    have hX : 0 ≤ (if 0 < b.averageDailySpend ∧ 0 < b.targetBurnRate ∧
        b.targetBurnRate < b.averageDailySpend then
          ((b.remainingCredits / (b.remainingDays : ℚ) : ℚ) : ℝ) /
            Real.sqrt ((b.averageDailySpend / b.targetBurnRate : ℚ) : ℝ)
        else ((b.remainingCredits / (b.remainingDays : ℚ) : ℚ) : ℝ)) *
        (((11 : ℚ) / 10 : ℚ) : ℝ) * ((1.15 : ℚ) : ℝ) * ((1.05 : ℚ) : ℝ) :=
      mul_nonneg (mul_nonneg (mul_nonneg hD (by norm_num)) (by norm_num)) (by norm_num)
    rw [max_eq_right (round_nonneg_of_nonneg _ hX)]
    congr 1
    push_cast
    ring

/-- Witness for C6's scenario-D conjunct at `profileD`, `baseD`, `today = 3`
(a Sunday under the embedding's weekday convention). -/
theorem calculateDailySafeLimit_spec_witness :
    profileD.preferences.riskTolerance = some "high" ∧
    profileD.preferences.weekendBoost = true ∧
    isWeekend 3 = true ∧
    profileD.preferences.examMode = true ∧
    profileD.preferences.maxSpendPerDay = none ∧
    0 < baseD.remainingDays ∧ 0 ≤ baseD.remainingCredits ∧
    calculateDailySafeLimit profileD [] baseD 3 =
      round (dampedBase baseD * (1.1 : ℝ) * (1.15 : ℝ) * (1.05 : ℝ)) :=
  ⟨rfl, rfl, by decide, rfl, rfl, by norm_num [baseD], by norm_num [baseD],
   calculateDailySafeLimit_spec.2 profileD [] baseD 3 rfl rfl (by decide) rfl rfl
     (by norm_num [baseD]) (by norm_num [baseD])⟩

/-- C7 — confirmed.  For every profile, metrics, expense list (and ambient
day), `generateAdvice` returns at most 5 items, sorted by non-decreasing
severity rank (`high = 0 < medium = 1 < low = 2`), and the sort is stable:
filtering the output to any one severity yields a sublist of the firing
rules in rule-table order (`triggeredItems`). -/
theorem generateAdvice_length_sorted_stable (p : Profile) (d : DerivedMetrics)
    (es : List Expense) (t : ℤ) :
    (generateAdvice p d es t).length ≤ 5 ∧
    (generateAdvice p d es t).Pairwise
      (fun a b => severityOrder a.severity ≤ severityOrder b.severity) ∧
    ∀ s : String,
      List.Sublist
        ((generateAdvice p d es t).filter (fun i => i.severity == s))
        ((triggeredItems p d es t).filter (fun i => i.severity == s)) := by
  have htrans : ∀ a b c : AdviceItem,
      decide (severityOrder a.severity ≤ severityOrder b.severity) = true →
      decide (severityOrder b.severity ≤ severityOrder c.severity) = true →
      decide (severityOrder a.severity ≤ severityOrder c.severity) = true := by
    intro a b c hab hbc
    rw [decide_eq_true_eq] at hab hbc ⊢
    exact le_trans hab hbc
  have htotal : ∀ a b : AdviceItem,
      (decide (severityOrder a.severity ≤ severityOrder b.severity) ||
       decide (severityOrder b.severity ≤ severityOrder a.severity)) = true := by
    intro a b
    rcases le_total (severityOrder a.severity) (severityOrder b.severity) with h | h
    · simp [h]
    · simp [h]
  have hga : generateAdvice p d es t =
      ((triggeredItems p d es t).mergeSort fun a b =>
        decide (severityOrder a.severity ≤ severityOrder b.severity)).take 5 := rfl
  have hsorted := List.sorted_mergeSort htrans htotal (triggeredItems p d es t)
  refine ⟨?_, ?_, ?_⟩
  · rw [hga]
    simp [List.length_take]
  · rw [hga]
    have hpw := List.Pairwise.sublist (List.take_sublist 5 _) hsorted
    exact hpw.imp fun h => by simpa using h
  · intro s
    rw [hga]
    have hpair : ((triggeredItems p d es t).filter fun i => i.severity == s).Pairwise
        fun a b : AdviceItem =>
          decide (severityOrder a.severity ≤ severityOrder b.severity) = true := by
      apply List.pairwise_of_forall_mem_list
      intro a ha b hb
      have ha' : a.severity = s := by simpa using List.of_mem_filter ha
      have hb' : b.severity = s := by simpa using List.of_mem_filter hb
      rw [decide_eq_true_eq, ha', hb']
    have hsubl := List.sublist_mergeSort htrans htotal hpair
      (List.filter_sublist (triggeredItems p d es t))
    have hperm := (List.mergeSort_perm (triggeredItems p d es t) fun a b =>
      decide (severityOrder a.severity ≤ severityOrder b.severity)).filter
        fun i => i.severity == s
    have hsub2 := hsubl.filter fun i => i.severity == s
    rw [List.filter_filter] at hsub2
    have hself : ((triggeredItems p d es t).filter fun i =>
        (i.severity == s) && (i.severity == s)) =
        ((triggeredItems p d es t).filter fun i => i.severity == s) := by
      congr 1
      funext i
      exact Bool.and_self _
    rw [hself] at hsub2
    have heq := hsub2.eq_of_length hperm.length_eq.symm
    have hstep := (List.take_sublist 5 ((triggeredItems p d es t).mergeSort fun a b =>
      decide (severityOrder a.severity ≤ severityOrder b.severity))).filter
        fun i => i.severity == s
    rw [heq]
    exact hstep

/-- C10 — confirmed.  Each of the nine table rules contributes at most one
item per `generateAdvice` call: the returned `id`s are pairwise distinct and
each is one of the nine rule ids. -/
theorem generateAdvice_rule_ids (p : Profile) (d : DerivedMetrics)
    (es : List Expense) (t : ℤ) :
    ((generateAdvice p d es t).map AdviceItem.id).Nodup ∧
    ∀ a ∈ generateAdvice p d es t,
      a.id ∈ ["on_track", "overspending_early", "exhaustion_warning", "frequent_chicken",
        "dessert_spending", "daily_limit_exceeded", "weekend_boost_suggestion",
        "surplus_projection", "queue_risk"] := by
  have hga : generateAdvice p d es t =
      ((triggeredItems p d es t).mergeSort fun a b =>
        decide (severityOrder a.severity ≤ severityOrder b.severity)).take 5 := rfl
  have hids9 : adviceRules.map AdviceRule.id =
      ["on_track", "overspending_early", "exhaustion_warning", "frequent_chicken",
       "dessert_spending", "daily_limit_exceeded", "weekend_boost_suggestion",
       "surplus_projection", "queue_risk"] := rfl
  have hnodup9 : (adviceRules.map AdviceRule.id).Nodup := by
    rw [hids9]
    decide
  have hmapsub : List.Sublist ((triggeredItems p d es t).map AdviceItem.id)
      (adviceRules.map AdviceRule.id) := by
    unfold triggeredItems
    rw [List.map_map]
    exact List.Sublist.map _ (List.filter_sublist _)
  have hLnodup : ((triggeredItems p d es t).map AdviceItem.id).Nodup :=
    List.Nodup.sublist hmapsub hnodup9
  have hpm := (List.mergeSort_perm (triggeredItems p d es t) fun a b =>
    decide (severityOrder a.severity ≤ severityOrder b.severity)).map AdviceItem.id
  have hsortednodup := hpm.symm.nodup hLnodup
  constructor
  · rw [hga]
    exact List.Nodup.sublist (List.Sublist.map _ (List.take_sublist 5 _)) hsortednodup
  · intro a ha
    rw [hga] at ha
    have ha2 : a ∈ (triggeredItems p d es t).mergeSort fun a b =>
        decide (severityOrder a.severity ≤ severityOrder b.severity) :=
      (List.take_sublist 5 _).subset ha
    rw [List.mem_mergeSort] at ha2
    unfold triggeredItems at ha2
    rw [List.mem_map] at ha2
    obtain ⟨r, hr, rfl⟩ := ha2
    have : r.id ∈ adviceRules.map AdviceRule.id :=
      List.mem_map_of_mem _ (List.mem_of_mem_filter hr)
    rwa [hids9] at this

end Unmessify
